import Mathlib

/-!
# Verification of the VirtualDoc backend authentication core

Shallow embedding of `src/server.js` (Express + Mongoose auth backend):
the password-hasher boundary (bcryptjs), the token issuer/verifier
(jsonwebtoken), the `authenticateToken` gate, and the account-service
routes (signup, signin, profile get/update, medical-info update) over an
explicit credential store.  Machine arithmetic does not overflow in any
modelled path, so clock instants and identifiers are `Nat`.
-/

set_option autoImplicit false

namespace VirtualDoc

/-! ## Password hasher (bcryptjs boundary) -/

/-- Modelled from the spec: bcryptjs is a third-party library whose source is
not part of this repository.  Its one-way kernel ("recomputes using the salt
embedded in `digest`") is idealised as an injective function of the cost, the
salt and the plaintext; `BcryptBody` is its opaque output. -/
structure BcryptBody where
  cost : Nat
  salt : Nat
  plaintext : String
  deriving DecidableEq, Repr

/-- A well-formed bcrypt digest string: the cost and salt are recoverable from
the digest, alongside the kernel output. -/
structure Digest where
  cost : Nat
  salt : Nat
  body : BcryptBody
  deriving DecidableEq, Repr

/-- `bcrypt.hash(plaintext, salt)` where `salt` was produced by
`bcrypt.genSalt(cost)` (src/server.js:237-238); salt freshness is modelled by
the caller supplying a salt value never used before (the store's salt counter). -/
def bcryptHash (cost salt : Nat) (plaintext : String) : Digest :=
  { cost := cost, salt := salt, body := { cost := cost, salt := salt, plaintext := plaintext } }

/-- The stored `password` field of a user document: either a well-formed
digest (the only thing the `pre('save')` hook ever writes) or some other raw
string that is not a well-formed bcrypt digest. -/
inductive StoredHash where
  | digest (d : Digest)
  | raw (s : String)
  deriving DecidableEq, Repr

/-- `bcrypt.compare(candidate, stored)` (src/server.js:246-248).  Modelled from
the spec: recomputes the kernel with the cost and salt embedded in the digest
and compares; on a string that is not a well-formed digest it resolves `false`.
The return type is a total `Bool`: no exception path exists in the model,
matching the contract that malformed digests never raise. -/
def bcryptCompare (candidate : String) (stored : StoredHash) : Bool :=
  match stored with
  | .raw _ => false
  | .digest d => (bcryptHash d.cost d.salt candidate).body == d.body

/-! ## Token issuer / verifier (jsonwebtoken boundary) -/

/-- The claim set of an issued token: `{ userId, email }` plus the issued-at
and expiry instants added by `jwt.sign` (seconds since epoch). -/
structure JwtPayload where
  userId : Nat
  email : String
  iat : Nat
  exp : Nat
  deriving DecidableEq, Repr

/-- Modelled from the spec: the HMAC signature is idealised as unforgeable —
a signature value is valid exactly for the secret and payload it was minted
over. -/
structure JwtSig where
  secret : String
  payload : JwtPayload
  deriving DecidableEq, Repr

/-- A structurally well-formed signed token (payload plus signature, possibly
signed under a different secret). -/
structure SignedJwt where
  payload : JwtPayload
  sig : JwtSig
  deriving DecidableEq, Repr

/-- `jwt.sign({userId, email}, JWT_SECRET, {expiresIn: '7d'})`
(src/server.js:318-322 and 378-382) at clock instant `now`. -/
def jwtSign (secret : String) (userId : Nat) (email : String) (now : Nat) : SignedJwt :=
  let payload : JwtPayload :=
    { userId := userId, email := email, iat := now, exp := now + 7 * 24 * 60 * 60 }
  { payload := payload, sig := { secret := secret, payload := payload } }

/-- A presented bearer credential: either a structurally well-formed JWT
(whose signature may still be wrong or whose expiry may have passed) or a
corrupted string that does not parse as a token at all. -/
inductive Bearer where
  | jwt (t : SignedJwt)
  | corrupt (s : String)
  deriving DecidableEq, Repr

/-- `jwt.verify(token, JWT_SECRET)` (src/server.js:264): errors on structural
corruption, on a signature not matching the secret, and on an expiry the clock
has reached (`jsonwebtoken` rejects once `now ≥ exp`); on success returns the
decoded payload. -/
def jwtVerify (secret : String) (b : Bearer) (now : Nat) : Except String JwtPayload :=
  match b with
  | .corrupt _ => .error "jwt malformed"
  | .jwt t =>
    if t.sig ≠ { secret := secret, payload := t.payload } then .error "invalid signature"
    else if t.payload.exp ≤ now then .error "jwt expired"
    else .ok t.payload

/-- Whether verification succeeded. -/
def jwtOk (r : Except String JwtPayload) : Bool :=
  match r with
  | .ok _ => true
  | .error _ => false

/-! ## Auth gate (`authenticateToken`, src/server.js:256-271) -/

/-- Character-level model of JavaScript `String.prototype.split(' ')`: cuts at
every single space, preserving empty segments. -/
def splitSpaceAux : List Char → List Char → List String
  | [], acc => [String.mk acc.reverse]
  | c :: cs, acc =>
    if c = ' ' then String.mk acc.reverse :: splitSpaceAux cs []
    else splitSpaceAux cs (c :: acc)

/-- `authHeader.split(' ')`. -/
def splitSpace (s : String) : List String := splitSpaceAux s.toList []

/-- `const token = authHeader && authHeader.split(' ')[1]` followed by
`if (!token)`: the token is the part after the first space of the
authorization header; an absent header, a header without a second
space-separated part, and an empty second part are all falsy. -/
def extractBearerToken (authHeader : Option String) : Option String :=
  match authHeader with
  | none => none
  | some h =>
    match (splitSpace h)[1]? with
    | none => none
    | some "" => none
    | some t => some t

/-- Outcome of the gate middleware: an early `res.status(...).json(...)`
rejection, or `req.user = user; next()` — the identity attached and control
passed to the downstream handler. -/
inductive GateResult where
  | reject (status : Nat) (message : String)
  | attach (user : JwtPayload)
  deriving DecidableEq, Repr

/-- The downstream route handler runs exactly when the gate called `next()`. -/
def GateResult.handlerRuns : GateResult → Bool
  | .attach _ => true
  | .reject _ _ => false

/-- The `authenticateToken` middleware (src/server.js:256-271).  `decode`
interprets the extracted token string as a bearer credential, standing for the
base64 parsing that `jwt.verify` performs on the wire format. -/
def authenticateToken (secret : String) (authHeader : Option String)
    (decode : String → Bearer) (now : Nat) : GateResult :=
  match extractBearerToken authHeader with
  | none => .reject 401 "Access token required"
  | some tok =>
    match jwtVerify secret (decode tok) now with
    | .error _ => .reject 403 "Invalid or expired token"
    | .ok payload => .attach payload

/-! ## User schema and credential store (src/server.js:130-250) -/

/-- An entry of `medicalHistory.surgeries` (src/server.js:190-194). -/
structure Surgery where
  procedure : String
  date : String
  hospital : String
  deriving DecidableEq, Repr

/-- The `medicalHistory` sub-document (src/server.js:186-195); array paths
default to empty arrays. -/
structure MedicalHistory where
  allergies : List String := []
  medications : List String := []
  conditions : List String := []
  surgeries : List Surgery := []
  deriving DecidableEq, Repr

/-- The `insurance` sub-document (src/server.js:196-200). -/
structure Insurance where
  provider : Option String := none
  policyNumber : Option String := none
  groupNumber : Option String := none
  deriving DecidableEq, Repr

/-- The `emergencyContact` sub-document (src/server.js:181-185). -/
structure EmergencyContact where
  name : Option String := none
  relationship : Option String := none
  phone : Option String := none
  deriving DecidableEq, Repr

/-- A persisted user document of the `User` model (src/server.js:130-230).
`password` holds the bcrypt digest after the `pre('save')` hook has run;
`email` is stored in its normalized (lowercased, trimmed) form by the schema
setters. -/
structure Account where
  id : Nat
  firstName : String
  lastName : String
  email : String
  password : StoredHash
  phone : Option String := none
  dateOfBirth : Option String := none
  gender : Option String := none
  bloodType : Option String := none
  height : Option String := none
  weight : Option String := none
  medicalHistory : MedicalHistory := {}
  insurance : Insurance := {}
  emergencyContact : EmergencyContact := {}
  familyHistory : Option String := none
  smokingStatus : Option String := none
  alcoholConsumption : Option String := none
  exerciseFrequency : Option String := none
  dietaryRestrictions : Option String := none
  notes : Option String := none
  preferredLanguage : String := "en"
  deriving DecidableEq, Repr

/-- The Mongo collection plus the id generator and the bcrypt salt generator:
`nextSalt` is bumped on every save, modelling that `bcrypt.genSalt` never
repeats a salt. -/
structure Store where
  accounts : List Account
  nextId : Nat := 0
  nextSalt : Nat := 0
  deriving DecidableEq, Repr

/-- Drop leading whitespace characters from a character list. -/
def dropLeadingWs : List Char → List Char
  | [] => []
  | c :: cs => if c.isWhitespace then dropLeadingWs cs else c :: cs

/-- Character-level model of JavaScript `String.prototype.trim()` (the
schema's `trim: true` setter): strip whitespace from both ends. -/
def jsTrim (s : String) : String :=
  String.mk ((dropLeadingWs (dropLeadingWs s.toList).reverse).reverse)

/-- Character-level model of `String.prototype.toLowerCase()` (the schema's
`lowercase: true` setter). -/
def jsToLower (s : String) : String :=
  String.mk (s.toList.map Char.toLower)

/-- The schema's `lowercase: true, trim: true` setters on `email`
(src/server.js:141-147). -/
def normalizeEmail (e : String) : String := jsToLower (jsTrim e)

/-- JavaScript truthiness of an optional string field: `undefined` and `""`
are the falsy cases. -/
def truthy : Option String → Bool
  | none => false
  | some s => s != ""

/-- `User.findOne({ email })` (src/server.js:300, 362): the query filter is
cast through the schema setters, so the lookup key is the normalized email;
stored emails are already normalized. -/
def findByEmail (st : Store) (email : String) : Option Account :=
  st.accounts.find? (fun a => a.email == normalizeEmail email)

/-- `User.findById(id)` (src/server.js:487). -/
def findById (st : Store) (id : Nat) : Option Account :=
  st.accounts.find? (fun a => a.id == id)

/-! ## HTTP responses and serialization -/

/-- A JSON response: an error body `{message}` with its status, or a success
body carrying an optional message, an optional token, and the serialized user
object as an ordered key/value list. -/
inductive Resp where
  | err (status : Nat) (message : String)
  | ok (status : Nat) (message : Option String) (token : Option SignedJwt)
      (user : List (String × String))
  deriving DecidableEq, Repr

/-- Status code of a response. -/
def Resp.status : Resp → Nat
  | .err s _ => s
  | .ok s _ _ _ => s

/-- The keys of the serialized user object of a response (an error response
serializes no user). -/
def Resp.userKeys : Resp → List String
  | .err _ _ => []
  | .ok _ _ _ u => u.map Prod.fst

/-- The `userData` object built by the signup and signin handlers
(src/server.js:325-332 and 385-392): id, names, email, phone and preferred
language — "Return user data without password".  An `undefined` phone is
dropped by JSON serialization. -/
def userDataOf (a : Account) : List (String × String) :=
  [("id", toString a.id), ("firstName", a.firstName), ("lastName", a.lastName),
    ("email", a.email)]
  ++ (match a.phone with | some ph => [("phone", ph)] | none => [])
  ++ [("preferredLanguage", a.preferredLanguage)]

/-- Rendering of the stored password field as the string it is on the wire
(only ever used under `select('-password')`, which removes it). -/
def StoredHash.render : StoredHash → String
  | .raw s => s
  | .digest d => "$2a$" ++ toString d.cost ++ "$" ++ toString d.salt

/-- Serialize an optional scalar path: an unset path is absent from the
document. -/
def optField (key : String) : Option String → List (String × String)
  | none => []
  | some v => [(key, v)]

/-- Flattened rendering of the `medicalHistory` sub-document. -/
def MedicalHistory.render (m : MedicalHistory) : String :=
  String.intercalate "," m.allergies ++ ";" ++ String.intercalate "," m.medications
    ++ ";" ++ String.intercalate "," m.conditions
    ++ ";" ++ String.intercalate "," (m.surgeries.map (fun s => s.procedure))

/-- Flattened rendering of the `insurance` sub-document. -/
def Insurance.render (i : Insurance) : String :=
  (i.provider.getD "") ++ ";" ++ (i.policyNumber.getD "") ++ ";" ++ (i.groupNumber.getD "")

/-- Flattened rendering of the `emergencyContact` sub-document. -/
def EmergencyContact.render (e : EmergencyContact) : String :=
  (e.name.getD "") ++ ";" ++ (e.relationship.getD "") ++ ";" ++ (e.phone.getD "")

/-- Full serialization of a user document: every schema path, the stored
password included. -/
def accountFields (a : Account) : List (String × String) :=
  [("_id", toString a.id), ("firstName", a.firstName), ("lastName", a.lastName),
    ("email", a.email), ("password", a.password.render)]
  ++ optField "phone" a.phone
  ++ optField "dateOfBirth" a.dateOfBirth
  ++ optField "gender" a.gender
  ++ optField "bloodType" a.bloodType
  ++ optField "height" a.height
  ++ optField "weight" a.weight
  ++ [("medicalHistory", a.medicalHistory.render), ("insurance", a.insurance.render),
    ("emergencyContact", a.emergencyContact.render)]
  ++ optField "familyHistory" a.familyHistory
  ++ optField "smokingStatus" a.smokingStatus
  ++ optField "alcoholConsumption" a.alcoholConsumption
  ++ optField "exerciseFrequency" a.exerciseFrequency
  ++ optField "dietaryRestrictions" a.dietaryRestrictions
  ++ optField "notes" a.notes
  ++ [("preferredLanguage", a.preferredLanguage)]

/-- `.select('-password')` (src/server.js:470, 487, 510): the serialized
document with the `password` path excluded. -/
def selectMinusPassword (a : Account) : List (String × String) :=
  (accountFields a).filter (fun kv => kv.1 != "password")

/-! ## Account service routes -/

/-- The destructured body of `POST /api/auth/signup` (src/server.js:278);
absent keys are `none`. -/
structure SignupReq where
  firstName : Option String := none
  lastName : Option String := none
  email : Option String := none
  password : Option String := none
  confirmPassword : Option String := none
  deriving DecidableEq, Repr

/-- The user document `new User({firstName, lastName, email, password})` as
persisted by `await user.save()` (src/server.js:308-315): schema setters
applied to the names and the email, the password digested by the `pre('save')`
hook at cost 12 with the fresh salt. -/
def signupAccount (st : Store) (r : SignupReq) : Account :=
  { id := st.nextId
    firstName := jsTrim (r.firstName.getD "")
    lastName := jsTrim (r.lastName.getD "")
    email := normalizeEmail (r.email.getD "")
    password := .digest (bcryptHash 12 st.nextSalt (r.password.getD "")) }

/-- Save-time schema validation run by `await user.save()`
(src/server.js:131-151): `required: true` on firstName, lastName and email
rejects values that are empty after the `trim: true` setter has run.  The
`password` validators (required, minlength 6) cannot fail on the signup path:
the route has already checked presence and plaintext length before saving. -/
def saveValidates (a : Account) : Bool :=
  a.firstName != "" && a.lastName != "" && a.email != ""

/-- `POST /api/auth/signup` (src/server.js:276-347): presence check, password
confirmation, minimum length, duplicate-email check, then `user.save()` —
whose schema validation failure is caught by the route's catch block as a 500
with no account persisted — and a 7-day token on success. -/
def signup (secret : String) (now : Nat) (st : Store) (r : SignupReq) : Resp × Store :=
  if !(truthy r.firstName && truthy r.lastName && truthy r.email && truthy r.password) then
    (.err 400 "All required fields must be provided", st)
  else if r.password != r.confirmPassword then
    (.err 400 "Passwords do not match", st)
  else if (r.password.getD "").length < 6 then
    (.err 400 "Password must be at least 6 characters long", st)
  else if (findByEmail st (r.email.getD "")).isSome then
    (.err 400 "User with this email already exists", st)
  else if !(saveValidates (signupAccount st r)) then
    (.err 500 "Internal server error", st)
  else
    (.ok 201 (some "User created successfully")
        (some (jwtSign secret (signupAccount st r).id (signupAccount st r).email now))
        (userDataOf (signupAccount st r)),
      { accounts := st.accounts ++ [signupAccount st r],
        nextId := st.nextId + 1, nextSalt := st.nextSalt + 1 })

/-- Number of stored accounts whose email equals a given email after
normalization. -/
def emailCount (st : Store) (e : String) : Nat :=
  (st.accounts.filter (fun a => a.email == normalizeEmail e)).length

/-- The destructured body of `POST /api/auth/signin` (src/server.js:352). -/
structure SigninReq where
  email : Option String := none
  password : Option String := none
  deriving DecidableEq, Repr

/-- `POST /api/auth/signin` (src/server.js:350-407): presence check, lookup by
email, password comparison, then a fresh 7-day token.  The store is not
modified. -/
def signin (secret : String) (now : Nat) (st : Store) (r : SigninReq) : Resp :=
  if !(truthy r.email && truthy r.password) then
    .err 400 "Email and password are required"
  else
    match findByEmail st (r.email.getD "") with
    | none => .err 401 "Invalid email or password"
    | some user =>
      if !(bcryptCompare (r.password.getD "") user.password) then
        .err 401 "Invalid email or password"
      else
        .ok 200 (some "Login successful")
          (some (jwtSign secret user.id user.email now)) (userDataOf user)

/-- The body of `PUT /api/auth/profile` (src/server.js:502), restricted to the
scalar paths of the schema it can address; absent keys are `none`. -/
structure ProfilePatch where
  firstName : Option String := none
  lastName : Option String := none
  phone : Option String := none
  preferredLanguage : Option String := none
  password : Option String := none
  email : Option String := none
  deriving DecidableEq, Repr

/-- `findByIdAndUpdate(id, updates, {new: true, runValidators: true})` with no
atomic operator (src/server.js:506-510): Mongoose casts the object to a `$set`
of the present keys, running the schema setters.  The `pre('save')` hook does
NOT run on this path, so a `password` key would store its raw string
unhashed. -/
def applySet (a : Account) (p : ProfilePatch) : Account :=
  { a with
    firstName := match p.firstName with | some v => jsTrim v | none => a.firstName
    lastName := match p.lastName with | some v => jsTrim v | none => a.lastName
    phone := match p.phone with | some v => some (jsTrim v) | none => a.phone
    preferredLanguage := match p.preferredLanguage with
      | some v => v
      | none => a.preferredLanguage
    email := match p.email with | some v => normalizeEmail v | none => a.email
    password := match p.password with | some v => .raw v | none => a.password }

/-- The update validators run by `runValidators: true` (src/server.js:509) on
the `$set` paths of the sanitized patch: `required: true` on firstName and
lastName rejects values empty after trimming, and `preferredLanguage` must lie
in the enum `['en', 'xh', 'ts']` (src/server.js:223-227).  The phone path has
no validator; the password and email keys have been deleted before the update
reaches Mongoose. -/
def validProfilePatch (p : ProfilePatch) : Bool :=
  (match p.firstName with | some v => jsTrim v != "" | none => true)
  && (match p.lastName with | some v => jsTrim v != "" | none => true)
  && (match p.preferredLanguage with
      | some v => v == "en" || v == "xh" || v == "ts"
      | none => true)

/-- `delete updates.password; delete updates.email` (src/server.js:503-504):
the sanitized patch actually handed to `findByIdAndUpdate`. -/
def sanitizeProfilePatch (p : ProfilePatch) : ProfilePatch :=
  { p with password := none, email := none }

/-- `PUT /api/auth/profile` (src/server.js:500-524): deletes the `password`
and `email` keys from the patch, applies the rest through
`findByIdAndUpdate(.., {new: true, runValidators: true})` — an update-validator
failure is caught by the route's catch block as a 500 with the store
unchanged — and returns the updated document minus the password. -/
def updateProfile (st : Store) (userId : Nat) (patch : ProfilePatch) : Resp × Store :=
  if !(validProfilePatch (sanitizeProfilePatch patch)) then
    (.err 500 "Internal server error", st)
  else
    match findById st userId with
    | none => (.err 404 "User not found", st)
    | some a =>
      (.ok 200 (some "Profile updated successfully") none
          (selectMinusPassword (applySet a (sanitizeProfilePatch patch))),
        { st with accounts := st.accounts.map (fun x =>
            if x.id == userId then applySet x (sanitizeProfilePatch patch) else x) })

/-- `GET /api/auth/profile` (src/server.js:485-497). -/
def getProfile (st : Store) (userId : Nat) : Resp :=
  match findById st userId with
  | none => .err 404 "User not found"
  | some u => .ok 200 none none (selectMinusPassword u)

/-- The flat body of `PUT /api/auth/update-medical-info` (src/server.js:410);
array-valued keys are present (and then truthy, even when empty) or absent. -/
structure MedicalReq where
  dateOfBirth : Option String := none
  gender : Option String := none
  bloodType : Option String := none
  height : Option String := none
  weight : Option String := none
  allergies : Option (List String) := none
  currentMedications : Option (List String) := none
  medicalConditions : Option (List String) := none
  surgeries : Option (List Surgery) := none
  insuranceProvider : Option String := none
  insurancePolicyNumber : Option String := none
  emergencyContactName : Option String := none
  emergencyContactPhone : Option String := none
  emergencyContactRelation : Option String := none
  familyHistory : Option String := none
  smokingStatus : Option String := none
  alcoholConsumption : Option String := none
  exerciseFrequency : Option String := none
  dietaryRestrictions : Option String := none
  notes : Option String := none
  deriving DecidableEq, Repr

/-- The `$set` document built by the medical-info route (src/server.js:419-461)
applied to a user document: truthy flat fields are set directly; each nested
group, when any of its keys is given, replaces the whole sub-document. -/
def applyMedical (r : MedicalReq) (a : Account) : Account :=
  let a :=
    { a with
      dateOfBirth := if truthy r.dateOfBirth then r.dateOfBirth else a.dateOfBirth
      gender := if truthy r.gender then r.gender else a.gender
      bloodType := if truthy r.bloodType then r.bloodType else a.bloodType
      height := if truthy r.height then r.height else a.height
      weight := if truthy r.weight then r.weight else a.weight }
  let a :=
    if r.allergies.isSome || r.currentMedications.isSome
        || r.medicalConditions.isSome || r.surgeries.isSome then
      { a with medicalHistory :=
          { allergies := r.allergies.getD []
            medications := r.currentMedications.getD []
            conditions := r.medicalConditions.getD []
            surgeries := r.surgeries.getD [] } }
    else a
  let a :=
    if truthy r.insuranceProvider || truthy r.insurancePolicyNumber then
      { a with insurance :=
          { provider := if truthy r.insuranceProvider then r.insuranceProvider else none
            policyNumber :=
              if truthy r.insurancePolicyNumber then r.insurancePolicyNumber else none
            groupNumber := none } }
    else a
  let a :=
    if truthy r.emergencyContactName || truthy r.emergencyContactPhone
        || truthy r.emergencyContactRelation then
      { a with emergencyContact :=
          { name := if truthy r.emergencyContactName then r.emergencyContactName else none
            phone := if truthy r.emergencyContactPhone then r.emergencyContactPhone else none
            relationship :=
              if truthy r.emergencyContactRelation then r.emergencyContactRelation else none } }
    else a
  { a with
    familyHistory := if truthy r.familyHistory then r.familyHistory else a.familyHistory
    smokingStatus := if truthy r.smokingStatus then r.smokingStatus else a.smokingStatus
    alcoholConsumption :=
      if truthy r.alcoholConsumption then r.alcoholConsumption else a.alcoholConsumption
    exerciseFrequency :=
      if truthy r.exerciseFrequency then r.exerciseFrequency else a.exerciseFrequency
    dietaryRestrictions :=
      if truthy r.dietaryRestrictions then r.dietaryRestrictions else a.dietaryRestrictions
    notes := if truthy r.notes then r.notes else a.notes }

/-- `PUT /api/auth/update-medical-info` (src/server.js:410-482):
`findByIdAndUpdate` with the mapped `$set` document, returning the updated
document minus the password. -/
def updateMedicalInfo (st : Store) (userId : Nat) (r : MedicalReq) : Resp × Store :=
  match findById st userId with
  | none => (.err 404 "User not found", st)
  | some a =>
    (.ok 200 none none (selectMinusPassword (applyMedical r a)),
      { st with accounts :=
          st.accounts.map (fun x => if x.id == userId then applyMedical r x else x) })

/-! ## Concrete fixtures used to instantiate the theorems -/

/-- An empty credential store. -/
def emptyStore : Store := { accounts := [], nextId := 0, nextSalt := 0 }

/-- A stored digest of the password `"secret1"` (cost 12, salt 0). -/
def sampleDigest : StoredHash := .digest (bcryptHash 12 0 "secret1")

/-- An account as signup would create it from
`{firstName: "A", lastName: "B", email: "a@x.com", password: "secret1"}`. -/
def sampleAccount : Account :=
  { id := 0, firstName := "A", lastName := "B", email := "a@x.com", password := sampleDigest }

/-- A store holding exactly `sampleAccount`. -/
def sampleStore : Store := { accounts := [sampleAccount], nextId := 1, nextSalt := 1 }

/-- The spec's duplicate-email scenario, first request: email `"A@x.com"`. -/
def dupReq1 : SignupReq :=
  { firstName := some "A", lastName := some "B", email := some "A@x.com",
    password := some "secret1", confirmPassword := some "secret1" }

/-- The spec's duplicate-email scenario, second request: email `"a@x.com "`
(same email after normalization). -/
def dupReq2 : SignupReq :=
  { firstName := some "C", lastName := some "D", email := some "a@x.com ",
    password := some "secret2", confirmPassword := some "secret2" }

/-- A signup request body with a mismatched confirmation password. -/
def mismatchReq : SignupReq :=
  { firstName := some "A", lastName := some "B", email := some "a@x.com",
    password := some "secret1", confirmPassword := some "other77" }

/-- A signup request body whose `confirmPassword` key is absent. -/
def noConfirmReq : SignupReq :=
  { firstName := some "A", lastName := some "B", email := some "a@x.com",
    password := some "secret1", confirmPassword := none }

/-! ## Theorems -/

/-- C5: for every password `P`, `verify(P, hash(P))` is true; two `hash` calls
with distinct fresh salts produce distinct digests; and for `P1 ≠ P2`,
`verify(P1, hash(P2))` is false. -/
theorem bcrypt_hash_verify_contract (cost s1 s2 : Nat) (P P1 P2 : String) :
    bcryptCompare P (.digest (bcryptHash cost s1 P)) = true
    ∧ (s1 ≠ s2 → bcryptHash cost s1 P ≠ bcryptHash cost s2 P)
    ∧ (P1 ≠ P2 → bcryptCompare P1 (.digest (bcryptHash cost s2 P2)) = false) := by
  refine ⟨?_, ?_, ?_⟩
  · simp [bcryptCompare, bcryptHash]
  · intro hs heq
    exact hs (congrArg Digest.salt heq)
  · intro hp
    have hne : ({ cost := cost, salt := s2, plaintext := P1 } : BcryptBody)
        ≠ { cost := cost, salt := s2, plaintext := P2 } := by
      intro heq
      exact hp (congrArg BcryptBody.plaintext heq)
    simp only [bcryptCompare, bcryptHash]
    exact beq_eq_false_iff_ne.mpr hne

theorem bcrypt_hash_verify_contract_witness :
    bcryptCompare "secret1" (.digest (bcryptHash 12 0 "secret1")) = true
    ∧ bcryptHash 12 0 "secret1" ≠ bcryptHash 12 1 "secret1"
    ∧ bcryptCompare "wrong" (.digest (bcryptHash 12 1 "secret1")) = false :=
  ⟨(bcrypt_hash_verify_contract 12 0 1 "secret1" "wrong" "secret1").1,
    (bcrypt_hash_verify_contract 12 0 1 "secret1" "wrong" "secret1").2.1 (by decide),
    (bcrypt_hash_verify_contract 12 0 1 "secret1" "wrong" "secret1").2.2 (by decide)⟩

/-- C6: `verify` on a string that is not a well-formed digest returns `false`;
the embedding is a total `Bool`-valued function, so no exception can reach the
caller as an authentication outcome. -/
theorem bcryptCompare_malformed_false (plaintext raw : String) :
    bcryptCompare plaintext (.raw raw) = false := rfl

/-- C4: every issued token embeds the account id and email with expiry
issuance + exactly 7 days; verification succeeds strictly before that instant
and fails from it on. -/
theorem token_seven_day_ttl (secret : String) (userId : Nat) (email : String) (now v : Nat) :
    (jwtSign secret userId email now).payload.userId = userId
    ∧ (jwtSign secret userId email now).payload.email = email
    ∧ (jwtSign secret userId email now).payload.exp = now + 7 * 24 * 60 * 60
    ∧ (v < now + 7 * 24 * 60 * 60 →
        jwtVerify secret (.jwt (jwtSign secret userId email now)) v
          = .ok (jwtSign secret userId email now).payload)
    ∧ (now + 7 * 24 * 60 * 60 ≤ v →
        jwtOk (jwtVerify secret (.jwt (jwtSign secret userId email now)) v) = false) := by
  refine ⟨rfl, rfl, rfl, ?_, ?_⟩
  · intro hv
    have hne : ¬ (now + 7 * 24 * 60 * 60 ≤ v) := by omega
    simp [jwtVerify, jwtSign, hne]
  · intro hv
    simp [jwtVerify, jwtSign, jwtOk, hv]

theorem token_seven_day_ttl_witness :
    jwtVerify "s" (.jwt (jwtSign "s" 7 "a@b.com" 0)) (6 * 24 * 60 * 60)
      = .ok (jwtSign "s" 7 "a@b.com" 0).payload
    ∧ jwtOk (jwtVerify "s" (.jwt (jwtSign "s" 7 "a@b.com" 0)) (8 * 24 * 60 * 60)) = false :=
  ⟨(token_seven_day_ttl "s" 7 "a@b.com" 0 (6 * 24 * 60 * 60)).2.2.2.1 (by decide),
    (token_seven_day_ttl "s" 7 "a@b.com" 0 (8 * 24 * 60 * 60)).2.2.2.2 (by decide)⟩

/-- C3: the gate is the three-outcome state machine — no extractable token
yields 401; a present token failing verification (corrupt structure, bad
signature, or past expiry, all collapsed into one message) yields 403; a valid
token attaches the decoded identity; handlers run exactly on attachment. -/
theorem auth_gate_three_outcomes (secret : String) (h : Option String)
    (decode : String → Bearer) (now : Nat) :
    (extractBearerToken h = none →
      authenticateToken secret h decode now = .reject 401 "Access token required")
    ∧ (∀ tok, extractBearerToken h = some tok →
        jwtOk (jwtVerify secret (decode tok) now) = false →
        authenticateToken secret h decode now = .reject 403 "Invalid or expired token")
    ∧ (∀ tok p, extractBearerToken h = some tok →
        jwtVerify secret (decode tok) now = .ok p →
        authenticateToken secret h decode now = .attach p)
    ∧ (∀ s, jwtOk (jwtVerify secret (.corrupt s) now) = false)
    ∧ (∀ t : SignedJwt, t.sig ≠ { secret := secret, payload := t.payload } →
        jwtOk (jwtVerify secret (.jwt t) now) = false)
    ∧ (∀ t : SignedJwt, t.payload.exp < now →
        jwtOk (jwtVerify secret (.jwt t) now) = false)
    ∧ (∀ status m, GateResult.handlerRuns (.reject status m) = false)
    ∧ (∀ p, GateResult.handlerRuns (.attach p) = true) := by
  refine ⟨?_, ?_, ?_, ?_, ?_, ?_, fun _ _ => rfl, fun _ => rfl⟩
  · intro he
    simp [authenticateToken, he]
  · intro tok he hbad
    simp only [authenticateToken, he]
    cases hv : jwtVerify secret (decode tok) now with
    | error e => rfl
    | ok p =>
      rw [hv] at hbad
      simp [jwtOk] at hbad
  · intro tok p he hok
    simp [authenticateToken, he, hok]
  · intro s
    rfl
  · intro t hs
    simp only [jwtVerify]
    rw [if_pos hs]
    rfl
  · intro t hexp
    by_cases hsig : t.sig = { secret := secret, payload := t.payload }
    · have hle : t.payload.exp ≤ now := Nat.le_of_lt hexp
      simp [jwtVerify, jwtOk, hsig, hle]
    · simp [jwtVerify, jwtOk, hsig]

theorem auth_gate_three_outcomes_witness :
    authenticateToken "s" none (fun s => .corrupt s) 0 = .reject 401 "Access token required"
    ∧ authenticateToken "s" (some "Bearer xyz") (fun s => .corrupt s) 0
        = .reject 403 "Invalid or expired token"
    ∧ authenticateToken "s" (some "Bearer tok")
        (fun _ => .jwt (jwtSign "s" 7 "a@b.com" 0)) 100
        = .attach (jwtSign "s" 7 "a@b.com" 0).payload :=
  ⟨(auth_gate_three_outcomes "s" none (fun s => .corrupt s) 0).1 rfl,
    (auth_gate_three_outcomes "s" (some "Bearer xyz") (fun s => .corrupt s) 0).2.1
      "xyz" rfl rfl,
    (auth_gate_three_outcomes "s" (some "Bearer tok")
        (fun _ => .jwt (jwtSign "s" 7 "a@b.com" 0)) 100).2.2.1
      "tok" (jwtSign "s" 7 "a@b.com" 0).payload rfl rfl⟩

/-- C2: an unknown email and a wrong password produce the very same signin
response — identical status, message, and shape. -/
theorem signin_uniform_auth_failure (secret : String) (now : Nat) (st1 st2 : Store)
    (r : SigninReq) (he : truthy r.email = true) (hp : truthy r.password = true)
    (u : Account)
    (h1 : findByEmail st1 (r.email.getD "") = none)
    (h2 : findByEmail st2 (r.email.getD "") = some u)
    (hpw : bcryptCompare (r.password.getD "") u.password = false) :
    signin secret now st1 r = .err 401 "Invalid email or password"
    ∧ signin secret now st2 r = .err 401 "Invalid email or password"
    ∧ signin secret now st1 r = signin secret now st2 r := by
  have hA : signin secret now st1 r = .err 401 "Invalid email or password" := by
    simp [signin, he, hp, h1]
  have hB : signin secret now st2 r = .err 401 "Invalid email or password" := by
    simp [signin, he, hp, h2, hpw]
  exact ⟨hA, hB, hA.trans hB.symm⟩

theorem signin_uniform_auth_failure_witness :
    signin "s" 0 emptyStore { email := some "a@x.com", password := some "wrong" }
      = .err 401 "Invalid email or password"
    ∧ signin "s" 0 sampleStore { email := some "a@x.com", password := some "wrong" }
      = .err 401 "Invalid email or password"
    ∧ signin "s" 0 emptyStore { email := some "a@x.com", password := some "wrong" }
      = signin "s" 0 sampleStore { email := some "a@x.com", password := some "wrong" } :=
  signin_uniform_auth_failure "s" 0 emptyStore sampleStore
    { email := some "a@x.com", password := some "wrong" }
    (by decide) (by decide) sampleAccount (by decide) (by decide) (by decide)

/-- C7: a signup whose password differs from its confirmation changes nothing
in the store and fails with one of the 400 validation messages. -/
theorem signup_mismatch_validation (secret : String) (now : Nat) (st : Store) (r : SignupReq)
    (h : r.password ≠ r.confirmPassword) :
    (signup secret now st r).2 = st
    ∧ ((signup secret now st r).1 = .err 400 "All required fields must be provided"
      ∨ (signup secret now st r).1 = .err 400 "Passwords do not match") := by
  cases hA : (truthy r.firstName && truthy r.lastName && truthy r.email && truthy r.password) with
  | false => simp [signup, hA]
  | true =>
    have hb : (r.password != r.confirmPassword) = true := bne_iff_ne.mpr h
    simp [signup, hA, hb]

theorem signup_mismatch_validation_witness :
    (signup "s" 0 emptyStore mismatchReq).2 = emptyStore
    ∧ ((signup "s" 0 emptyStore mismatchReq).1
        = .err 400 "All required fields must be provided"
      ∨ (signup "s" 0 emptyStore mismatchReq).1 = .err 400 "Passwords do not match") :=
  signup_mismatch_validation "s" 0 emptyStore mismatchReq (by decide)

/-- C10: when `confirmPassword` is absent but the four required fields are
present, the presence check (which does not cover `confirmPassword`) passes
and the mismatch check fires: the password-mismatch validation error, with no
Account created. -/
theorem signup_absent_confirm_mismatch (secret : String) (now : Nat) (st : Store) (r : SignupReq)
    (hf : truthy r.firstName = true) (hl : truthy r.lastName = true)
    (he : truthy r.email = true) (hp : truthy r.password = true)
    (hc : r.confirmPassword = none) :
    signup secret now st r = (.err 400 "Passwords do not match", st) := by
  have hb : (r.password != r.confirmPassword) = true := by
    rw [hc]
    cases hpv : r.password with
    | none => rw [hpv] at hp; simp [truthy] at hp
    | some p => rfl
  simp [signup, hf, hl, he, hp, hb]

theorem signup_absent_confirm_mismatch_witness :
    signup "s" 0 emptyStore noConfirmReq = (.err 400 "Passwords do not match", emptyStore) :=
  signup_absent_confirm_mismatch "s" 0 emptyStore noConfirmReq
    (by decide) (by decide) (by decide) (by decide) rfl

theorem findByEmail_eq_none_of_emailCount_zero (st : Store) (e : String)
    (h : emailCount st e = 0) : findByEmail st e = none := by
  have h' : st.accounts.filter (fun a => a.email == normalizeEmail e) = [] :=
    List.length_eq_zero.mp h
  unfold findByEmail
  rw [List.find?_eq_none]
  intro x hx hpx
  have hmem : x ∈ st.accounts.filter (fun a => a.email == normalizeEmail e) :=
    List.mem_filter.mpr ⟨hx, hpx⟩
  rw [h'] at hmem
  exact (List.not_mem_nil x) hmem

/-- C1: starting from a store with no account under the normalized email, two
valid signups (route checks and the first request's save-time schema
validation satisfied) whose emails agree after normalization produce one 201
creation adding exactly one account, then a duplicate-email 400 rejection that
leaves the store untouched, with exactly one matching account remaining. -/
theorem signup_duplicate_email_rejected
    (secret : String) (now1 now2 : Nat) (st : Store) (r1 r2 : SignupReq)
    (h1f : truthy r1.firstName = true) (h1l : truthy r1.lastName = true)
    (h1e : truthy r1.email = true) (h1p : truthy r1.password = true)
    (h1c : r1.password = r1.confirmPassword) (h1len : ¬ (r1.password.getD "").length < 6)
    (h1fn : jsTrim (r1.firstName.getD "") ≠ "") (h1ln : jsTrim (r1.lastName.getD "") ≠ "")
    (h1em : normalizeEmail (r1.email.getD "") ≠ "")
    (h2f : truthy r2.firstName = true) (h2l : truthy r2.lastName = true)
    (h2e : truthy r2.email = true) (h2p : truthy r2.password = true)
    (h2c : r2.password = r2.confirmPassword) (h2len : ¬ (r2.password.getD "").length < 6)
    (hdup : normalizeEmail (r1.email.getD "") = normalizeEmail (r2.email.getD ""))
    (hfresh : emailCount st (r1.email.getD "") = 0) :
    (signup secret now1 st r1).1.status = 201
    ∧ (signup secret now1 st r1).2.accounts.length = st.accounts.length + 1
    ∧ emailCount (signup secret now1 st r1).2 (r1.email.getD "") = 1
    ∧ signup secret now2 (signup secret now1 st r1).2 r2
      = (.err 400 "User with this email already exists", (signup secret now1 st r1).2)
    ∧ emailCount (signup secret now2 (signup secret now1 st r1).2 r2).2
        (r2.email.getD "") = 1 := by
  have hnone : findByEmail st (r1.email.getD "") = none :=
    findByEmail_eq_none_of_emailCount_zero st _ hfresh
  have hfilter : st.accounts.filter
      (fun a => a.email == normalizeEmail (r1.email.getD "")) = [] :=
    List.length_eq_zero.mp hfresh
  have hval : saveValidates (signupAccount st r1) = true := by
    simp [saveValidates, signupAccount, bne_iff_ne, h1fn, h1ln, h1em]
  have hrun1 : signup secret now1 st r1 =
      (.ok 201 (some "User created successfully")
        (some (jwtSign secret (signupAccount st r1).id (signupAccount st r1).email now1))
        (userDataOf (signupAccount st r1)),
        { accounts := st.accounts ++ [signupAccount st r1],
          nextId := st.nextId + 1, nextSalt := st.nextSalt + 1 }) := by
    simp [signup, h1f, h1l, h1e, h1p, ← h1c, hnone, h1len, hval]
  have hcount1 : emailCount (signup secret now1 st r1).2 (r1.email.getD "") = 1 := by
    rw [hrun1]
    simp [emailCount, List.filter_append, hfilter, signupAccount]
  have hfind2 : findByEmail (signup secret now1 st r1).2 (r2.email.getD "")
      = some (signupAccount st r1) := by
    rw [hrun1]
    unfold findByEmail
    rw [← hdup]
    have hn : st.accounts.find?
        (fun a => a.email == normalizeEmail (r1.email.getD "")) = none := by
      have h' := hnone
      unfold findByEmail at h'
      exact h'
    simp only [List.find?_append, hn]
    simp [signupAccount]
  have hsecond : signup secret now2 (signup secret now1 st r1).2 r2
      = (.err 400 "User with this email already exists", (signup secret now1 st r1).2) := by
    generalize hst1 : (signup secret now1 st r1).2 = st1
    rw [hst1] at hfind2
    simp [signup, h2f, h2l, h2e, h2p, ← h2c, h2len, hfind2]
  refine ⟨by rw [hrun1]; rfl, by rw [hrun1]; simp, hcount1, hsecond, ?_⟩
  rw [hsecond]
  show emailCount (signup secret now1 st r1).2 (r2.email.getD "") = 1
  unfold emailCount
  rw [← hdup]
  have h1' := hcount1
  unfold emailCount at h1'
  exact h1'

theorem signup_duplicate_email_rejected_witness :
    (signup "s" 0 emptyStore dupReq1).1.status = 201
    ∧ (signup "s" 0 emptyStore dupReq1).2.accounts.length = emptyStore.accounts.length + 1
    ∧ emailCount (signup "s" 0 emptyStore dupReq1).2 (dupReq1.email.getD "") = 1
    ∧ signup "s" 1 (signup "s" 0 emptyStore dupReq1).2 dupReq2
      = (.err 400 "User with this email already exists", (signup "s" 0 emptyStore dupReq1).2)
    ∧ emailCount (signup "s" 1 (signup "s" 0 emptyStore dupReq1).2 dupReq2).2
        (dupReq2.email.getD "") = 1 :=
  signup_duplicate_email_rejected "s" 0 1 emptyStore dupReq1 dupReq2
    (by decide) (by decide) (by decide) (by decide) rfl (by decide)
    (by decide) (by decide) (by decide)
    (by decide) (by decide) (by decide) (by decide) rfl (by decide)
    (by decide) (by decide)

theorem applySet_preserves_id (a : Account) (p : ProfilePatch) :
    (applySet a p).id = a.id := rfl

theorem find?_id_map_ite (l : List Account) (n : Nat) (g : Account → Account)
    (hg : ∀ x, (g x).id = x.id) (a : Account)
    (h : l.find? (fun x => x.id == n) = some a) :
    (l.map (fun x => if x.id == n then g x else x)).find? (fun x => x.id == n)
      = some (g a) := by
  induction l with
  | nil => simp at h
  | cons y t ih =>
    cases hy : (y.id == n) with
    | true =>
      simp only [List.find?_cons, hy] at h
      injection h with h'
      subst h'
      have hga : ((g y).id == n) = true := by rw [hg y]; exact hy
      rw [List.map_cons]
      have hhead : (if (y.id == n) then g y else y) = g y := by simp [hy]
      rw [hhead]
      simp [List.find?_cons, hga]
    | false =>
      simp only [List.find?_cons, hy] at h
      rw [List.map_cons]
      have hhead : (if (y.id == n) then g y else y) = y := by simp [hy]
      rw [hhead]
      simp only [List.find?_cons, hy]
      exact ih h

/-- C8: `updateProfile` silently drops the `password` and `email` keys of the
patch — the request succeeds with 200 whenever the sanitized patch passes the
update validators, the other fields are applied, and the stored digest and
email are unchanged, so the digest still verifies against the original
password. -/
theorem updateProfile_discards_credentials
    (st : Store) (userId : Nat) (patch : ProfilePatch) (a : Account)
    (hfind : findById st userId = some a)
    (hvalid : validProfilePatch (sanitizeProfilePatch patch) = true)
    (origPw : String) (hverif : bcryptCompare origPw a.password = true) :
    (updateProfile st userId patch).1
      = .ok 200 (some "Profile updated successfully") none
          (selectMinusPassword (applySet a (sanitizeProfilePatch patch)))
    ∧ findById (updateProfile st userId patch).2 userId
      = some (applySet a (sanitizeProfilePatch patch))
    ∧ (applySet a (sanitizeProfilePatch patch)).password = a.password
    ∧ (applySet a (sanitizeProfilePatch patch)).email = a.email
    ∧ (applySet a (sanitizeProfilePatch patch)).firstName
      = (match patch.firstName with | some v => jsTrim v | none => a.firstName)
    ∧ bcryptCompare origPw (applySet a (sanitizeProfilePatch patch)).password = true := by
  have hrun : updateProfile st userId patch
      = (.ok 200 (some "Profile updated successfully") none
          (selectMinusPassword (applySet a (sanitizeProfilePatch patch))),
        { st with accounts := st.accounts.map (fun x =>
            if x.id == userId then applySet x (sanitizeProfilePatch patch) else x) }) := by
    simp [updateProfile, hfind, hvalid]
  refine ⟨by rw [hrun], ?_, rfl, rfl, rfl, hverif⟩
  rw [hrun]
  unfold findById at hfind ⊢
  exact find?_id_map_ite st.accounts userId
    (fun x => applySet x (sanitizeProfilePatch patch))
    (fun x => applySet_preserves_id x _) a hfind

theorem updateProfile_discards_credentials_witness :
    (updateProfile sampleStore 0 { password := some "new", firstName := some "Jo" }).1
      = .ok 200 (some "Profile updated successfully") none
          (selectMinusPassword (applySet sampleAccount
            (sanitizeProfilePatch { password := some "new", firstName := some "Jo" })))
    ∧ findById (updateProfile sampleStore 0
          { password := some "new", firstName := some "Jo" }).2 0
      = some (applySet sampleAccount
          (sanitizeProfilePatch { password := some "new", firstName := some "Jo" }))
    ∧ (applySet sampleAccount
        (sanitizeProfilePatch { password := some "new", firstName := some "Jo" })).password
      = sampleAccount.password
    ∧ (applySet sampleAccount
        (sanitizeProfilePatch { password := some "new", firstName := some "Jo" })).email
      = sampleAccount.email
    ∧ (applySet sampleAccount
        (sanitizeProfilePatch { password := some "new", firstName := some "Jo" })).firstName
      = (match ({ password := some "new", firstName := some "Jo" } : ProfilePatch).firstName
          with | some v => jsTrim v | none => sampleAccount.firstName)
    ∧ bcryptCompare "secret1"
        (applySet sampleAccount
          (sanitizeProfilePatch { password := some "new", firstName := some "Jo" })).password
      = true :=
  updateProfile_discards_credentials sampleStore 0
    { password := some "new", firstName := some "Jo" } sampleAccount
    (by decide) (by decide) "secret1" (by decide)

theorem password_not_in_userDataOf (a : Account) :
    "password" ∉ (userDataOf a).map Prod.fst := by
  unfold userDataOf
  cases a.phone <;> simp

theorem password_not_in_selectMinusPassword (a : Account) :
    "password" ∉ (selectMinusPassword a).map Prod.fst := by
  unfold selectMinusPassword
  intro hmem
  obtain ⟨kv, hkv, hfst⟩ := List.mem_map.mp hmem
  have hflt := (List.mem_filter.mp hkv).2
  rw [hfst] at hflt
  simp at hflt

/-- C9: no route response ever carries a `password` key in its serialized user
object — signup, signin, get-profile, update-profile, and update-medical-info
all exclude the stored digest. -/
theorem password_digest_never_serialized (secret : String) (now : Nat) (st : Store)
    (rs : SignupReq) (ri : SigninReq) (uid : Nat) (pp : ProfilePatch) (mr : MedicalReq) :
    "password" ∉ ((signup secret now st rs).1).userKeys
    ∧ "password" ∉ (signin secret now st ri).userKeys
    ∧ "password" ∉ (getProfile st uid).userKeys
    ∧ "password" ∉ ((updateProfile st uid pp).1).userKeys
    ∧ "password" ∉ ((updateMedicalInfo st uid mr).1).userKeys := by
  refine ⟨?_, ?_, ?_, ?_, ?_⟩
  · unfold signup
    split
    · simp [Resp.userKeys]
    · split
      · simp [Resp.userKeys]
      · split
        · simp [Resp.userKeys]
        · split
          · simp [Resp.userKeys]
          · split
            · simp [Resp.userKeys]
            · simp only [Resp.userKeys]
              exact password_not_in_userDataOf _
  · unfold signin
    split
    · simp [Resp.userKeys]
    · split
      · simp [Resp.userKeys]
      · split
        · simp [Resp.userKeys]
        · simp only [Resp.userKeys]
          exact password_not_in_userDataOf _
  · unfold getProfile
    split
    · simp [Resp.userKeys]
    · simp only [Resp.userKeys]
      exact password_not_in_selectMinusPassword _
  · unfold updateProfile
    split
    · simp [Resp.userKeys]
    · split
      · simp [Resp.userKeys]
      · simp only [Resp.userKeys]
        exact password_not_in_selectMinusPassword _
  · unfold updateMedicalInfo
    split
    · simp [Resp.userKeys]
    · simp only [Resp.userKeys]
      exact password_not_in_selectMinusPassword _

end VirtualDoc
